import Mathlib

/-!
Verification of the invoices CRUD flow taught in `LEARNING/dashboard-app.md`
(a Next.js dashboard course).  The embedded code is the final Chapter-13
version of `/app/lib/actions.ts` (the server actions `createInvoice`,
`updateInvoice`, `deleteInvoice` together with the Zod `FormSchema`), the
search-parameter resolution of `/app/dashboard/invoices/page.tsx`, and the
not-found handling of `/app/dashboard/invoices/[id]/edit/page.tsx`.

JavaScript numbers are modelled by exact rationals (ℚ); `formData.get(name)`
returns `Option String` (`none` for `null`).  A server action either throws
(`Except.error`) or returns, having produced a list of framework effects
(`revalidatePath`, `redirect`, `console.error`) and a new state of the
`invoices` table.
-/

namespace Dashboard

/-- Invoice status: `status: 'pending' | 'paid'` from `/app/lib/definitions.ts`. -/
inductive Status where
  | pending
  | paid
deriving DecidableEq

/-- A row of the `invoices` table, after the `Invoice` type of
`/app/lib/definitions.ts`: `id`, `customer_id`, `amount` (a JS number,
modelled as ℚ, stored in cents), `status`, `date`. -/
structure Invoice where
  id : String
  customer_id : String
  amount : ℚ
  status : Status
  date : String
deriving DecidableEq

/-- The `invoices` table of the storage layer, as a list of rows. -/
abbrev InvoicesTable := List Invoice

/-- The form fields a mutation reads via `formData.get`; `none` models the
`null` that `FormData.get` returns for an absent field.  `id` and `date`
are carried so that we can state that the mutation schemas ignore them. -/
structure FormData where
  id : Option String
  customerId : Option String
  amount : Option String
  status : Option String
  date : Option String
deriving DecidableEq

/-- The numeric value of a list of decimal digits. -/
def digitsNat (cs : List Char) : Nat :=
  cs.foldl (fun n c => 10 * n + (c.toNat - 48)) 0

/-- Split a character list at every occurrence of `sep` (the semantics of
JS `'s'.split(sep)` for a one-character separator). -/
def splitOnChar (sep : Char) : List Char → List (List Char)
  | [] => [[]]
  | c :: cs =>
    match splitOnChar sep cs with
    | [] => [[]]
    | y :: ys => if c = sep then [] :: y :: ys else (c :: y) :: ys

/-- JavaScript `Number(s)` on a string, restricted to decimal numerals
(optional sign, integer part, optional fractional part); `none` models `NaN`.
`Number('') = 0` as in JS.  Exponent and hex forms are outside the inputs
this development exercises and are mapped to `NaN`. -/
def jsNumber (s : String) : Option ℚ :=
  match s.data with
  | [] => some 0
  | c :: cs =>
    let (sign, t) : ℚ × List Char :=
      if c = '-' then (-1, cs) else if c = '+' then (1, cs) else (1, c :: cs)
    match splitOnChar '.' t with
    | [ip] =>
        if ip ≠ [] ∧ ip.all Char.isDigit then some (sign * (digitsNat ip : ℚ))
        else none
    | [ip, fp] =>
        if (ip ≠ [] ∨ fp ≠ []) ∧ ip.all Char.isDigit ∧ fp.all Char.isDigit then
          some (sign * ((digitsNat ip : ℚ) + (digitsNat fp : ℚ) / 10 ^ fp.length))
        else none
    | _ => none

/-- `z.coerce.number()` applied to a `formData.get` result: JS `Number`
coercion, where `Number(null) = 0` and `NaN` fails validation. -/
def coerceNumber : Option String → Option ℚ
  | none => some 0
  | some s => jsNumber s

/-- `z.enum(['pending', 'paid'])` applied to a `formData.get` result:
exactly the two literal strings are accepted. -/
def parseStatus : Option String → Option Status
  | none => none
  | some s =>
    if s = "pending" then some Status.pending
    else if s = "paid" then some Status.paid
    else none

/-- The value produced by a successful `CreateInvoice.parse` /
`UpdateInvoice.parse`: the three destructured fields. -/
structure ParsedForm where
  customerId : String
  amount : ℚ
  status : Status
deriving DecidableEq

/-- The full record accepted by `FormSchema` (before `omit`): all five
fields, `id`, `customerId`, `date` as `z.string()`, `amount` coerced,
`status` enumerated. -/
structure ParsedFull where
  id : String
  customerId : String
  amount : ℚ
  status : Status
  date : String
deriving DecidableEq

/-- `FormSchema.parse` from `/app/lib/actions.ts`:
`z.object({ id: z.string(), customerId: z.string(), amount: z.coerce.number(),
status: z.enum(['pending', 'paid']), date: z.string() })`.
`z.string()` rejects `null`, so an absent field fails. -/
def FormSchema_parse (fd : FormData) : Option ParsedFull := do
  let i ← fd.id
  let cid ← fd.customerId
  let amt ← coerceNumber fd.amount
  let st ← parseStatus fd.status
  let d ← fd.date
  pure ⟨i, cid, amt, st, d⟩

/-- `CreateInvoice = FormSchema.omit({ id: true, date: true })`, applied via
`.parse` to the three fields the action reads.  A `none` result models the
`ZodError` that `.parse` throws. -/
def CreateInvoice_parse (fd : FormData) : Option ParsedForm := do
  let cid ← fd.customerId
  let amt ← coerceNumber fd.amount
  let st ← parseStatus fd.status
  pure ⟨cid, amt, st⟩

/-- `UpdateInvoice = FormSchema.omit({ id: true, date: true })` — the same
schema as `CreateInvoice`. -/
def UpdateInvoice_parse (fd : FormData) : Option ParsedForm :=
  CreateInvoice_parse fd

/-- Framework side effects a server action performs besides the SQL write. -/
inductive Effect where
  | revalidatePath (path : String)
  | redirect (path : String)
  | logError
deriving DecidableEq

/-- What an action that returns normally produced: the new state of the
`invoices` table and the effects, in order. -/
structure ActionResult where
  table : InvoicesTable
  effects : List Effect
deriving DecidableEq

/-- An exception escaping a server action: the `ZodError` of `.parse`, or a
storage error no `try/catch` intercepted. -/
inductive Thrown where
  | validationError
  | storageError
deriving DecidableEq

deriving instance DecidableEq for Except

/-- `new Date().toISOString().split('T')[0]` applied to a given ISO
timestamp string: the date part before the first `'T'`. -/
def isoDatePart (now : String) : String :=
  String.mk ((splitOnChar 'T' now.data).headD [])

/-- `createInvoice` from `/app/lib/actions.ts`, Chapter-13 version.
`now` is the server clock's ISO timestamp (`new Date().toISOString()`);
`storageOk` says whether the `INSERT` succeeds; `newId` is the id the
database generates for the inserted row (the `INSERT` lists no id).
The stored date is `now.split('T')[0]`; on storage failure the `catch`
logs (`console.error`) and the action still reaches `revalidatePath` and
`redirect`, both outside the `try/catch`. -/
def createInvoice (now : String) (storageOk : Bool) (table : InvoicesTable)
    (newId : String) (fd : FormData) : Except Thrown ActionResult :=
  match CreateInvoice_parse fd with
  | none => Except.error Thrown.validationError
  | some p =>
    let amountInCents := p.amount * 100
    let date := isoDatePart now
    if storageOk then
      Except.ok ⟨table ++ [⟨newId, p.customerId, amountInCents, p.status, date⟩],
        [Effect.revalidatePath "/dashboard/invoices",
         Effect.redirect "/dashboard/invoices"]⟩
    else
      Except.ok ⟨table,
        [Effect.logError,
         Effect.revalidatePath "/dashboard/invoices",
         Effect.redirect "/dashboard/invoices"]⟩

/-- `updateInvoice` from `/app/lib/actions.ts`, Chapter-13 version: validate,
convert to cents, `UPDATE ... WHERE id = ${id}` inside `try/catch`, then
`revalidatePath` and `redirect` outside it. -/
def updateInvoice (storageOk : Bool) (table : InvoicesTable) (id : String)
    (fd : FormData) : Except Thrown ActionResult :=
  match UpdateInvoice_parse fd with
  | none => Except.error Thrown.validationError
  | some p =>
    let amountInCents := p.amount * 100
    if storageOk then
      Except.ok ⟨table.map (fun inv =>
          if inv.id = id then
            { inv with customer_id := p.customerId, amount := amountInCents,
                       status := p.status }
          else inv),
        [Effect.revalidatePath "/dashboard/invoices",
         Effect.redirect "/dashboard/invoices"]⟩
    else
      Except.ok ⟨table,
        [Effect.logError,
         Effect.revalidatePath "/dashboard/invoices",
         Effect.redirect "/dashboard/invoices"]⟩

/-- `deleteInvoice` from `/app/lib/actions.ts`:
`await sql`DELETE FROM invoices WHERE id = ${id}`; revalidatePath(...)`.
There is no `try/catch` and no `redirect`, so a storage failure escapes
before `revalidatePath` runs. -/
def deleteInvoice (storageOk : Bool) (table : InvoicesTable) (id : String) :
    Except Thrown ActionResult :=
  if storageOk then
    Except.ok ⟨table.filter (fun inv => inv.id ≠ id),
      [Effect.revalidatePath "/dashboard/invoices"]⟩
  else
    Except.error Thrown.storageError

/-- The two URL search parameters of `/app/dashboard/invoices/page.tsx`,
each absent or a string. -/
structure SearchParams where
  query : Option String
  page : Option String
deriving DecidableEq

/-- `const query = searchParams?.query || ''` — JS `||` takes the fallback
on any falsy value, so `undefined` and `''` both give `''`. -/
def resolveQuery (sp : Option SearchParams) : String :=
  match sp with
  | none => ""
  | some s =>
    match s.query with
    | none => ""
    | some q => if q = "" then "" else q

/-- `Number(searchParams?.page)`: `Number(undefined) = NaN` (here `none`),
otherwise JS string-to-number coercion. -/
def pageNumber (sp : Option SearchParams) : Option ℚ :=
  match sp with
  | none => none
  | some s =>
    match s.page with
    | none => none
    | some pg => jsNumber pg

/-- `const currentPage = Number(searchParams?.page) || 1` — falls back to 1
exactly when the coercion gives `NaN` or `0`. -/
def resolvePage (sp : Option SearchParams) : ℚ :=
  match pageNumber sp with
  | none => 1
  | some x => if x = 0 then 1 else x

/-- The fixed page size of the invoices list (6 invoices per page). -/
def ITEMS_PER_PAGE : Nat := 6

/-- Modelled from the spec: `fetchFilteredInvoices` in `/app/lib/data.ts` is
not reproduced in the course notes; the notes only state that it "returns a
maximum of 6 invoices per page" for the requested 1-based page of the rows
matching the search.  The match predicate (case-insensitive substring over
the joined fields) is abstracted as a parameter `isMatch`. -/
def fetchFilteredInvoices (isMatch : Invoice → Bool) (table : InvoicesTable)
    (currentPage : Nat) : List Invoice :=
  ((table.filter isMatch).drop ((currentPage - 1) * ITEMS_PER_PAGE)).take
    ITEMS_PER_PAGE

/-- Modelled from the spec: `fetchInvoicesPages` in `/app/lib/data.ts` is not
reproduced in the course notes; the notes state it "returns the total number
of pages based on the search query", e.g. 12 matches at 6 per page give 2
pages — the ceiling of the match count divided by the page size, here in the
usual `(n + size - 1) / size` integer form. -/
def fetchInvoicesPages (isMatch : Invoice → Bool) (table : InvoicesTable) :
    Nat :=
  ((table.filter isMatch).length + ITEMS_PER_PAGE - 1) / ITEMS_PER_PAGE

/-- What the edit page presents for a given request. -/
inductive PageResult where
  | render (invoice : Invoice)
  | notFoundState
  | errorState
deriving DecidableEq

/-- `/app/dashboard/invoices/[id]/edit/page.tsx` after Chapter 13: the
result of `fetchInvoiceById(id)` is passed in (`none` when no row has the
id); `if (!invoice) notFound()` renders the dedicated `not-found.tsx`
boundary, a state distinct from the generic `error.tsx` one. -/
def editPage (invoice : Option Invoice) : PageResult :=
  match invoice with
  | none => PageResult.notFoundState
  | some inv => PageResult.render inv

/-! ## Theorems about the claims -/

/-- Claim C1 is false as stated: the form amount `"-5"` passes validation
(`z.coerce.number()` has no positivity bound) and `createInvoice` stores
`-5 * 100 = -500`, which is not `≥ 0`.  No rounding and no clamping occur. -/
theorem C1_counterexample :
    createInvoice "2026-01-01T00:00:00.000Z" true [] "i1"
        ⟨none, some "c1", some "-5", some "pending", none⟩ =
      Except.ok ⟨[⟨"i1", "c1", -500, Status.pending, "2026-01-01"⟩],
        [Effect.revalidatePath "/dashboard/invoices",
         Effect.redirect "/dashboard/invoices"]⟩ ∧
    ¬ (0 : ℚ) ≤ -500 := by
  constructor
  · simp +decide [createInvoice, CreateInvoice_parse, coerceNumber, jsNumber,
      splitOnChar, digitsNat, parseStatus, isoDatePart]
    norm_num
  · norm_num

/-- Claim C1 (amended): for every form input accepted by `createInvoice` or
`updateInvoice`, every row of the resulting table is either a pre-existing
row or carries the amount `input_amount * 100` exactly — no rounding is
applied and the value is not forced to be a non-negative integer. -/
theorem C1_thm (now newId uid : String) (t : InvoicesTable)
    (fd : FormData) (p : ParsedForm) (h : CreateInvoice_parse fd = some p) :
    (∀ r, createInvoice now true t newId fd = Except.ok r →
      ∀ inv ∈ r.table, inv ∈ t ∨ inv.amount = p.amount * 100) ∧
    (∀ r, updateInvoice true t uid fd = Except.ok r →
      ∀ inv ∈ r.table, inv ∈ t ∨ inv.amount = p.amount * 100) := by
  constructor
  · intro r hr inv hinv
    simp only [createInvoice, h, if_pos] at hr
    cases hr
    simp only [List.mem_append, List.mem_singleton] at hinv
    rcases hinv with hmem | hnew
    · exact Or.inl hmem
    · right
      rw [hnew]
  · intro r hr inv hinv
    simp only [updateInvoice, UpdateInvoice_parse, h, if_pos] at hr
    cases hr
    simp only [List.mem_map] at hinv
    obtain ⟨x, hx, hfx⟩ := hinv
    by_cases hid : x.id = uid
    · rw [← hfx, if_pos hid]
      right
      rfl
    · rw [← hfx, if_neg hid]
      exact Or.inl hx

/-- Witness for C1 at the input amount `"0"`: the row a concrete create
inserts is new and carries the input amount times 100. -/
theorem C1_witness :
    (⟨"i1", "c1", 0, Status.paid, "2026-01-01"⟩ : Invoice) ∈
        ([] : InvoicesTable) ∨
      Invoice.amount ⟨"i1", "c1", 0, Status.paid, "2026-01-01"⟩ =
        (0 : ℚ) * 100 :=
  (C1_thm "2026-01-01T00:00:00.000Z" "i1" "i2" []
      ⟨none, some "c1", some "0", some "paid", none⟩ ⟨"c1", 0, Status.paid⟩
      (by simp +decide [CreateInvoice_parse, coerceNumber, jsNumber,
        splitOnChar, digitsNat, parseStatus])).1
    ⟨[⟨"i1", "c1", 0, Status.paid, "2026-01-01"⟩],
     [Effect.revalidatePath "/dashboard/invoices",
      Effect.redirect "/dashboard/invoices"]⟩
    (by simp +decide [createInvoice, CreateInvoice_parse, coerceNumber,
      jsNumber, splitOnChar, digitsNat, parseStatus, isoDatePart])
    ⟨"i1", "c1", 0, Status.paid, "2026-01-01"⟩ (by simp)

/-- Claim C2 is false as stated: on a form whose status field is not one of
the two enumerated values, both mutations throw the validation error
(`.parse` raises a `ZodError`); no field-level messages are returned to the
caller. -/
theorem C2_counterexample :
    createInvoice "2026-01-01T00:00:00.000Z" true [] "i1"
        ⟨none, some "c1", some "7", some "bogus", none⟩ =
      Except.error Thrown.validationError ∧
    updateInvoice true [] "i2" ⟨none, some "c1", some "7", some "bogus", none⟩ =
      Except.error Thrown.validationError := by
  constructor
  · simp +decide [createInvoice, CreateInvoice_parse, coerceNumber, jsNumber,
      splitOnChar, digitsNat, parseStatus]
  · simp +decide [updateInvoice, UpdateInvoice_parse, CreateInvoice_parse,
      coerceNumber, jsNumber, splitOnChar, digitsNat, parseStatus]

/-- Claim C2 (amended): for every form input that fails schema validation,
`createInvoice` and `updateInvoice` throw the validation error to the
caller; they return no field-level messages and perform no effect. -/
theorem C2_thm (now newId uid : String) (ok1 ok2 : Bool)
    (t : InvoicesTable) (fd : FormData) (h : CreateInvoice_parse fd = none) :
    createInvoice now ok1 t newId fd = Except.error Thrown.validationError ∧
    updateInvoice ok2 t uid fd = Except.error Thrown.validationError := by
  constructor
  · simp [createInvoice, h]
  · simp [updateInvoice, UpdateInvoice_parse, h]

/-- Witness for C2 at a form with no status field at all. -/
theorem C2_witness :
    createInvoice "2026-01-01T00:00:00.000Z" true [] "i1"
        ⟨none, some "c1", some "7", none, none⟩ =
      Except.error Thrown.validationError ∧
    updateInvoice true [] "i2" ⟨none, some "c1", some "7", none, none⟩ =
      Except.error Thrown.validationError :=
  C2_thm "2026-01-01T00:00:00.000Z" "i1" "i2" true true []
    ⟨none, some "c1", some "7", none, none⟩
    (by simp +decide [CreateInvoice_parse, coerceNumber, jsNumber, splitOnChar,
      digitsNat, parseStatus])

/-- Claim C3 is false as stated: the mutation schema accepts the amount
`"-5"`, which is not strictly positive. -/
theorem C3_counterexample :
    CreateInvoice_parse ⟨none, some "c1", some "-5", some "paid", none⟩ =
      some ⟨"c1", -5, Status.paid⟩ ∧
    ¬ (0 : ℚ) < -5 := by
  constructor
  · simp +decide [CreateInvoice_parse, coerceNumber, jsNumber, splitOnChar,
      digitsNat, parseStatus]
  · norm_num

/-- Claim C3 (amended): the mutation schema accepts a form input exactly when
the customer field is present, the amount field coerces to a number under JS
`Number` (`NaN` is rejected, but any numeric value — zero or negative
included — is accepted, and an absent amount coerces to `0`), and the status
field is literally `'pending'` or `'paid'`.  No positivity constraint is
imposed on the amount. -/
theorem C3_thm (fd : FormData) :
    (CreateInvoice_parse fd).isSome ↔
      (fd.customerId.isSome ∧ (coerceNumber fd.amount).isSome ∧
        (fd.status = some "pending" ∨ fd.status = some "paid")) := by
  obtain ⟨i, cid, amt, st, d⟩ := fd
  simp only [CreateInvoice_parse]
  cases cid with
  | none => simp
  | some c =>
    cases hq : coerceNumber amt with
    | none => simp [hq]
    | some q =>
      cases st with
      | none => simp [hq, parseStatus]
      | some s =>
        by_cases h1 : s = "pending"
        · simp [hq, parseStatus, h1]
        · by_cases h2 : s = "paid"
          · simp [hq, parseStatus, h1, h2]
          · simp [hq, parseStatus, h1, h2]

/-- Integer ceiling division by the page size agrees with the rational
ceiling. -/
lemma ceil_div_six (n : Nat) : ⌈(n : ℚ) / 6⌉₊ = (n + 5) / 6 := by
  apply le_antisymm
  · rw [Nat.ceil_le, div_le_iff₀ (by norm_num : (0 : ℚ) < 6)]
    have h : n ≤ (n + 5) / 6 * 6 := by omega
    exact_mod_cast h
  · have h := Nat.le_ceil ((n : ℚ) / 6)
    rw [div_le_iff₀ (by norm_num : (0 : ℚ) < 6)] at h
    have h2 : n ≤ ⌈(n : ℚ) / 6⌉₊ * 6 := by exact_mod_cast h
    omega

/-- Claim C4: for every search predicate and page, `fetchFilteredInvoices`
returns at most 6 invoices, and `fetchInvoicesPages` is exactly the ceiling
of the number of matching invoices divided by 6. -/
theorem C4_thm (isMatch : Invoice → Bool) (t : InvoicesTable)
    (currentPage : Nat) :
    (fetchFilteredInvoices isMatch t currentPage).length ≤ 6 ∧
    fetchInvoicesPages isMatch t = ⌈((t.filter isMatch).length : ℚ) / 6⌉₊ := by
  constructor
  · calc (fetchFilteredInvoices isMatch t currentPage).length
        ≤ ITEMS_PER_PAGE := List.length_take_le _ _
    _ = 6 := rfl
  · rw [fetchInvoicesPages, ceil_div_six, ITEMS_PER_PAGE]
    omega

/-- Claim C5: whenever `createInvoice` or `updateInvoice` returns, a client
redirect to `/dashboard/invoices` is among its effects; `deleteInvoice`
never issues any redirect. -/
theorem C5_thm (now newId uid did : String) (ok1 ok2 ok3 : Bool)
    (t : InvoicesTable) (fd : FormData) :
    (∀ r, createInvoice now ok1 t newId fd = Except.ok r →
      Effect.redirect "/dashboard/invoices" ∈ r.effects) ∧
    (∀ r, updateInvoice ok2 t uid fd = Except.ok r →
      Effect.redirect "/dashboard/invoices" ∈ r.effects) ∧
    (∀ r, deleteInvoice ok3 t did = Except.ok r →
      ∀ path, Effect.redirect path ∉ r.effects) := by
  refine ⟨?_, ?_, ?_⟩
  · intro r hr
    cases hp : CreateInvoice_parse fd with
    | none => simp [createInvoice, hp] at hr
    | some p =>
      cases ok1 <;>
        · simp only [createInvoice, hp, if_pos, if_neg, Bool.false_eq_true,
            ite_false, ite_true] at hr
          cases hr
          simp
  · intro r hr
    cases hp : UpdateInvoice_parse fd with
    | none => simp [updateInvoice, hp] at hr
    | some p =>
      cases ok2 <;>
        · simp only [updateInvoice, hp, if_pos, if_neg, Bool.false_eq_true,
            ite_false, ite_true] at hr
          cases hr
          simp
  · intro r hr path
    cases ok3 with
    | false => simp [deleteInvoice] at hr
    | true =>
      simp only [deleteInvoice, ite_true] at hr
      cases hr
      simp

/-- Witness for C5: the redirect is present after a concrete successful
create, and absent after a concrete successful delete. -/
theorem C5_witness :
    Effect.redirect "/dashboard/invoices" ∈
      [Effect.revalidatePath "/dashboard/invoices",
       Effect.redirect "/dashboard/invoices"] ∧
    Effect.redirect "/dashboard/invoices" ∉
      [Effect.revalidatePath "/dashboard/invoices"] :=
  ⟨(C5_thm "2026-01-01T00:00:00.000Z" "i1" "i2" "i3" true true true []
      ⟨none, some "c1", some "0", some "paid", none⟩).1
      ⟨[⟨"i1", "c1", 0, Status.paid, "2026-01-01"⟩],
        [Effect.revalidatePath "/dashboard/invoices",
         Effect.redirect "/dashboard/invoices"]⟩
      (by simp +decide [createInvoice, CreateInvoice_parse, coerceNumber,
        jsNumber, splitOnChar, digitsNat, parseStatus, isoDatePart]),
   (C5_thm "2026-01-01T00:00:00.000Z" "i1" "i2" "i3" true true true []
      ⟨none, some "c1", some "0", some "paid", none⟩).2.2
      ⟨[], [Effect.revalidatePath "/dashboard/invoices"]⟩
      (by simp [deleteInvoice]) "/dashboard/invoices"⟩

/-- Claim C6 is false as stated: `deleteInvoice` has no `try/catch`, so a
storage failure on a concrete one-row table escapes as an exception instead
of being caught and logged, and `revalidatePath` is never reached. -/
theorem C6_counterexample :
    deleteInvoice false [⟨"i1", "c1", 0, Status.paid, "2026-01-01"⟩] "i1" =
      Except.error Thrown.storageError := by
  simp [deleteInvoice]

/-- Claim C6 (amended): for `createInvoice` and `updateInvoice` a storage
failure is caught and logged, the table is left unchanged, and the very same
cache invalidation and redirect as on success still happen; `deleteInvoice`
however has no `try/catch`, so its storage failure is thrown to the caller. -/
theorem C6_thm (now newId uid did : String) (t : InvoicesTable)
    (fd : FormData) (rOk rFail ruOk ruFail : ActionResult)
    (hc : createInvoice now true t newId fd = Except.ok rOk)
    (hcf : createInvoice now false t newId fd = Except.ok rFail)
    (hu : updateInvoice true t uid fd = Except.ok ruOk)
    (huf : updateInvoice false t uid fd = Except.ok ruFail) :
    rFail.table = t ∧ rFail.effects = Effect.logError :: rOk.effects ∧
    ruFail.table = t ∧ ruFail.effects = Effect.logError :: ruOk.effects ∧
    deleteInvoice false t did = Except.error Thrown.storageError := by
  cases hp : CreateInvoice_parse fd with
  | none =>
    rw [createInvoice, hp] at hc
    cases hc
  | some p =>
    rw [createInvoice, hp] at hc hcf
    rw [updateInvoice, UpdateInvoice_parse, hp] at hu huf
    simp only [if_pos, Bool.false_eq_true, if_neg, ite_true, ite_false] at hc hcf hu huf
    cases hc
    cases hcf
    cases hu
    cases huf
    exact ⟨rfl, rfl, rfl, rfl, by simp [deleteInvoice]⟩

/-- Witness for C6 on a concrete empty table and valid form. -/
theorem C6_witness :
    (ActionResult.table ⟨[], [Effect.logError,
        Effect.revalidatePath "/dashboard/invoices",
        Effect.redirect "/dashboard/invoices"]⟩ = ([] : InvoicesTable)) ∧
    (ActionResult.effects ⟨[], [Effect.logError,
        Effect.revalidatePath "/dashboard/invoices",
        Effect.redirect "/dashboard/invoices"]⟩ =
      Effect.logError :: ActionResult.effects
        ⟨[⟨"i1", "c1", 0, Status.paid, "2026-01-01"⟩],
         [Effect.revalidatePath "/dashboard/invoices",
          Effect.redirect "/dashboard/invoices"]⟩) ∧
    (ActionResult.table ⟨[], [Effect.logError,
        Effect.revalidatePath "/dashboard/invoices",
        Effect.redirect "/dashboard/invoices"]⟩ = ([] : InvoicesTable)) ∧
    (ActionResult.effects ⟨[], [Effect.logError,
        Effect.revalidatePath "/dashboard/invoices",
        Effect.redirect "/dashboard/invoices"]⟩ =
      Effect.logError :: ActionResult.effects
        ⟨[], [Effect.revalidatePath "/dashboard/invoices",
              Effect.redirect "/dashboard/invoices"]⟩) ∧
    deleteInvoice false [] "i3" = Except.error Thrown.storageError :=
  C6_thm "2026-01-01T00:00:00.000Z" "i1" "i2" "i3" []
    ⟨none, some "c1", some "0", some "paid", none⟩ _ _ _ _
    (by simp +decide [createInvoice, CreateInvoice_parse, coerceNumber,
      jsNumber, splitOnChar, digitsNat, parseStatus, isoDatePart])
    (by simp +decide [createInvoice, CreateInvoice_parse, coerceNumber,
      jsNumber, splitOnChar, digitsNat, parseStatus, isoDatePart])
    (by simp +decide [updateInvoice, UpdateInvoice_parse, CreateInvoice_parse,
      coerceNumber, jsNumber, splitOnChar, digitsNat, parseStatus])
    (by simp +decide [updateInvoice, UpdateInvoice_parse, CreateInvoice_parse,
      coerceNumber, jsNumber, splitOnChar, digitsNat, parseStatus])

/-- Claim C7: deleting an identifier no row carries succeeds, leaves the
table unchanged row for row, and still performs the cache invalidation. -/
theorem C7_thm (t : InvoicesTable) (id : String)
    (h : ∀ inv ∈ t, inv.id ≠ id) :
    deleteInvoice true t id =
      Except.ok ⟨t, [Effect.revalidatePath "/dashboard/invoices"]⟩ := by
  simp only [deleteInvoice, ite_true]
  have hf : t.filter (fun inv => inv.id ≠ id) = t := by
    rw [List.filter_eq_self]
    intro inv hinv
    simpa using h inv hinv
  rw [hf]

/-- Witness for C7: deleting the absent id `"i2"` from a concrete one-row
table returns the table unchanged. -/
theorem C7_witness :
    deleteInvoice true [⟨"i1", "c1", 0, Status.paid, "2026-01-01"⟩] "i2" =
      Except.ok ⟨[⟨"i1", "c1", 0, Status.paid, "2026-01-01"⟩],
        [Effect.revalidatePath "/dashboard/invoices"]⟩ :=
  C7_thm [⟨"i1", "c1", 0, Status.paid, "2026-01-01"⟩] "i2" (by simp)

/-- Claim C8 is false as stated: the page parameter `"-3"` is numeric and
non-zero, so no default applies and the resolved page is `-3`, which is not
a positive integer. -/
theorem C8_counterexample :
    resolvePage (some ⟨none, some "-3"⟩) = -3 ∧ ¬ (0 : ℚ) < -3 := by
  constructor
  · simp +decide [resolvePage, pageNumber, jsNumber, splitOnChar, digitsNat]
  · norm_num

/-- Claim C8 (amended): `query` resolves to the parameter when present and
non-empty and to `''` otherwise; `page` resolves to the JS numeric value of
the parameter whenever that value is a number other than `0`, and defaults
to `1` when the parameter is absent or non-numeric (`NaN`) or `0` — the
result is not forced to be a positive integer. -/
theorem C8_thm (sp : Option SearchParams) (x : ℚ) :
    resolveQuery none = "" ∧
    (∀ s : SearchParams, s.query = none → resolveQuery (some s) = "") ∧
    (∀ s : SearchParams, ∀ q, s.query = some q → q ≠ "" →
      resolveQuery (some s) = q) ∧
    (pageNumber sp = none → resolvePage sp = 1) ∧
    (pageNumber sp = some 0 → resolvePage sp = 1) ∧
    (pageNumber sp = some x → x ≠ 0 → resolvePage sp = x) := by
  refine ⟨rfl, ?_, ?_, ?_, ?_, ?_⟩
  · intro s hs
    simp [resolveQuery, hs]
  · intro s q hs hq
    simp [resolveQuery, hs, hq]
  · intro h
    simp [resolvePage, h]
  · intro h
    simp [resolvePage, h]
  · intro h hx
    simp [resolvePage, h, hx]

/-- Witness for C8: the page parameter `"5"` resolves to `5`. -/
theorem C8_witness : resolvePage (some ⟨none, some "5"⟩) = 5 :=
  (C8_thm (some ⟨none, some "5"⟩) 5).2.2.2.2.2
    (by simp +decide [pageNumber, jsNumber, splitOnChar, digitsNat])
    (by norm_num)

/-- Claim C9: a direct lookup by identifier that finds no invoice renders
the dedicated not-found boundary, a presentation state distinct from the
generic error boundary; a found invoice renders the edit form. -/
theorem C9_thm :
    editPage none = PageResult.notFoundState ∧
    PageResult.notFoundState ≠ PageResult.errorState ∧
    (∀ inv : Invoice, editPage (some inv) = PageResult.render inv) :=
  ⟨rfl, by simp, fun _ => rfl⟩

/-- Claim C10: `createInvoice` never takes the stored date from the form —
the parse ignores the form's `id` and `date` fields entirely, and every row
of the resulting table is either pre-existing or dated with the first
`'T'`-separated segment of the server's ISO timestamp. -/
theorem C10_thm (now newId : String) (t : InvoicesTable) (fd : FormData)
    (i d : Option String) :
    createInvoice now true t newId { fd with id := i, date := d } =
      createInvoice now true t newId fd ∧
    (∀ r, createInvoice now true t newId fd = Except.ok r →
      ∀ inv ∈ r.table, inv ∈ t ∨ inv.date = isoDatePart now) := by
  obtain ⟨i0, cid, amt, st, d0⟩ := fd
  refine ⟨rfl, ?_⟩
  intro r hr inv hinv
  cases hp : CreateInvoice_parse ⟨i0, cid, amt, st, d0⟩ with
  | none => rw [createInvoice, hp] at hr; cases hr
  | some p =>
    rw [createInvoice, hp] at hr
    simp only [ite_true] at hr
    cases hr
    simp only [List.mem_append, List.mem_singleton] at hinv
    rcases hinv with hmem | hnew
    · exact Or.inl hmem
    · right
      rw [hnew]

/-- Witness for C10: the row a concrete create inserts is dated
`"2026-02-03"`, the segment of `"2026-02-03T10:00:00.000Z"` before `'T'`. -/
theorem C10_witness :
    (⟨"i1", "c1", 0, Status.paid, "2026-02-03"⟩ : Invoice) ∈
        ([] : InvoicesTable) ∨
      Invoice.date ⟨"i1", "c1", 0, Status.paid, "2026-02-03"⟩ =
        isoDatePart "2026-02-03T10:00:00.000Z" :=
  (C10_thm "2026-02-03T10:00:00.000Z" "i1" []
      ⟨none, some "c1", some "0", some "paid", none⟩ none none).2
    ⟨[⟨"i1", "c1", 0, Status.paid, "2026-02-03"⟩],
     [Effect.revalidatePath "/dashboard/invoices",
      Effect.redirect "/dashboard/invoices"]⟩
    (by simp +decide [createInvoice, CreateInvoice_parse, coerceNumber,
      jsNumber, splitOnChar, digitsNat, parseStatus, isoDatePart])
    ⟨"i1", "c1", 0, Status.paid, "2026-02-03"⟩ (by simp)

end Dashboard
